import Mathlib

/-!
Shallow embedding of the lumibot repository's drift-rebalancing strategy
(`src/lumibot/strategies/drift_rebalancer.py`), CCXT order submission
(`src/lumibot/brokers/ccxt.py`) and Interactive Brokers REST data source
(`src/lumibot/data_sources/interactive_brokers_rest_data.py`).

Python `Decimal` values are modelled as exact rationals (ℚ).  The
operations the claims touch (comparison, addition, subtraction,
multiplication, quantization to a fixed exponent) are exact on `Decimal`
for the magnitudes involved, so ℚ is a faithful model.  A raised Python
exception is modelled by `Option`/`Except` with the failing branch
returning `none`/`.error`.
-/

namespace Lumibot

/-! ### Decimal primitives

`Decimal.quantize(Decimal(str(p)))` rounds to the exponent of `p` with the
default context rounding, which is round-half-even.  `decQuantize e v`
rounds `v` to an integer multiple of `10 ^ e`.

`Decimal.quantize(Decimal('1'), rounding=ROUND_DOWN)` truncates toward
zero; this is `truncQ`. -/

/-- Round a rational to the nearest integer, ties going to the even
integer (Python `decimal`'s default `ROUND_HALF_EVEN`). -/
def roundHalfEven (q : ℚ) : ℤ :=
  let f := ⌊q⌋
  let r := q - (f : ℚ)
  if r < 1/2 then f
  else if 1/2 < r then f + 1
  else if f % 2 = 0 then f else f + 1

/-- Model of `Decimal.quantize` to decimal exponent `e` (the result is an
integer multiple of `10 ^ e`), rounding half-even. -/
def decQuantize (e : ℤ) (v : ℚ) : ℚ :=
  (roundHalfEven (v / (10 : ℚ) ^ e) : ℚ) * (10 : ℚ) ^ e

/-- Model of `Decimal.quantize(Decimal('1'), rounding=ROUND_DOWN)`:
truncation toward zero. -/
def truncQ (q : ℚ) : ℤ :=
  if 0 ≤ q then ⌊q⌋ else -⌊-q⌋

/-! ### DriftCalculationLogic (drift_rebalancer.py lines 13-69)

A dataframe row before `calculate` runs carries the columns set by
`__init__`/`add_position`; `calculate` fills in `current_weight`,
`target_value` and `absolute_drift`. -/

/-- Input row of the drift dataframe: the columns that are populated
before `DriftCalculationLogic.calculate` runs. -/
structure PositionRow where
  symbol : String
  is_quote_asset : Bool
  current_quantity : ℚ
  current_value : ℚ
  target_weight : ℚ
deriving DecidableEq, Repr

/-- Output row of `DriftCalculationLogic.calculate`. -/
structure CalcRow where
  symbol : String
  is_quote_asset : Bool
  current_quantity : ℚ
  current_value : ℚ
  current_weight : ℚ
  target_weight : ℚ
  target_value : ℚ
  absolute_drift : ℚ
deriving DecidableEq, Repr

/-- Sum of the `current_value` column (`self.df["current_value"].sum()`). -/
def totalValue (rows : List PositionRow) : ℚ :=
  (rows.map (·.current_value)).sum

/-- Per-row computation of `DriftCalculationLogic.calculate`:
`current_weight = current_value / total`, `target_value = target_weight *
total`, and `absolute_drift` by the `calculate_drift_row` case analysis
(quote asset first, then full-liquidation, then new-entry, else
`target_weight - current_weight`). -/
def calcRow (total : ℚ) (r : PositionRow) : CalcRow :=
  let current_weight := r.current_value / total
  let target_value := r.target_weight * total
  let absolute_drift :=
    if r.is_quote_asset then 0
    else if 0 < r.current_quantity ∧ r.target_weight = 0 then -1
    else if r.current_quantity = 0 ∧ 0 < r.target_weight then 1
    else r.target_weight - current_weight
  { symbol := r.symbol
    is_quote_asset := r.is_quote_asset
    current_quantity := r.current_quantity
    current_value := r.current_value
    current_weight := current_weight
    target_weight := r.target_weight
    target_value := target_value
    absolute_drift := absolute_drift }

/-- Embedding of `DriftCalculationLogic.calculate`.  The column division
`self.df["current_value"] / total_value` is elementwise `Decimal`
division: when `total_value` is zero and the dataframe is nonempty the
first element raises `decimal.DivisionByZero`/`InvalidOperation`, which
is modelled by `none`. -/
def calculate (rows : List PositionRow) : Option (List CalcRow) :=
  if totalValue rows = 0 ∧ rows ≠ [] then none
  else some (rows.map (calcRow (totalValue rows)))

/-! ### LimitOrderRebalanceLogic (drift_rebalancer.py lines 72-141) -/

/-- Embedding of `LimitOrderRebalanceLogic.calculate_limit_price`.  The
Python method returns `None` when `side` is neither `"sell"` nor
`"buy"`. -/
def calculate_limit_price (acceptable_slippage last_price : ℚ) (side : String) : Option ℚ :=
  if side = "sell" then
    some (last_price * (1 - acceptable_slippage / 10000))
  else if side = "buy" then
    some (last_price * (1 + acceptable_slippage / 10000))
  else
    none

/-- Dataframe row as seen by `LimitOrderRebalanceLogic.rebalance` (the
output of `DriftCalculationLogic.calculate`). -/
structure DriftRow where
  symbol : String
  current_quantity : ℚ
  current_value : ℚ
  target_value : ℚ
  absolute_drift : ℚ
deriving DecidableEq, Repr

/-- One iteration of the buy loop of `LimitOrderRebalanceLogic.rebalance`
(lines 111-122): returns the cash estimate after processing `row`, or
`none` when the `Decimal` division raises (limit price zero).
`prices` models `self.strategy.get_last_price`. -/
def buyStep (acceptable_slippage : ℚ) (prices : String → ℚ) (cash_position : ℚ)
    (row : DriftRow) : Option ℚ :=
  if 0 < row.absolute_drift then
    match calculate_limit_price acceptable_slippage (prices row.symbol) "buy" with
    | none => none
    | some limit_price =>
      if limit_price = 0 then none
      else
        let order_value := row.target_value - row.current_value
        let quantity := truncQ (min order_value cash_position / limit_price)
        if 0 < quantity then some (cash_position - min order_value cash_position)
        else some cash_position
  else some cash_position

/-- The buy pass of `LimitOrderRebalanceLogic.rebalance`: fold `buyStep`
over the dataframe rows, threading the running cash estimate; `none`
when an exception aborts the pass. -/
def buyPass (acceptable_slippage : ℚ) (prices : String → ℚ) (cash_position : ℚ) :
    List DriftRow → Option ℚ
  | [] => some cash_position
  | row :: rest =>
    match buyStep acceptable_slippage prices cash_position row with
    | none => none
    | some cash' => buyPass acceptable_slippage prices cash' rest

/-! ### DriftRebalancer.initialize (drift_rebalancer.py lines 170-188)

`strategyInit` embeds the parameter sanity checks of the strategy's
`initialize` method (the name `initialize` itself is renamed here):
`.error msg` models a raised `ValueError`, and the `.ok` payload is the
list of symbols for which the target-weight warning is logged. -/
def strategyInit (absolute_drift_threshold acceptable_slippage : ℚ)
    (target_weights : List (String × ℚ)) : Except String (List String) :=
  if absolute_drift_threshold ≤ acceptable_slippage then
    .error "acceptable_slippage must be less than absolute_drift_threshold"
  else if (1 : ℚ) ≤ absolute_drift_threshold then
    .error "absolute_drift_threshold must be less than 1.0"
  else
    .ok ((target_weights.filter
      (fun kv => kv.2 ≤ absolute_drift_threshold)).map (fun kv => kv.1))

/-! ### get_from_endpoint (interactive_brokers_rest_data.py lines 291-392)

The HTTP interaction is modelled by a list of responses, one per issued
request, consumed in order.  The loop `while (not allow_fail) or
first_run` re-issues the request until the condition fails; only a 200
response sets `allow_fail = True`.  A 429 response re-enters through the
recursive call `self.get_from_endpoint(endpoint, description, silent)`,
which restores the default arguments `return_errors=True`,
`allow_fail=True`.  The embedding returns the Python return value paired
with the number of requests issued, or `none` when the response list is
exhausted with the loop still running (the call would keep issuing
requests). -/

/-- One HTTP attempt's outcome, as discriminated by `get_from_endpoint`:
a 200 with a JSON payload, a 404, a 429, another failing status code, or
a `requests` exception. -/
inductive HttpResp where
  | ok (payload : ℕ)
  | notFound
  | rateLimited
  | failStatus (code : ℕ)
  | netExn
deriving DecidableEq, Repr

/-- Value assigned to `to_return` by `get_from_endpoint`: either the
parsed JSON payload or the `{"error": ...}` marker dict built for a 404,
another failing status, or an exception. -/
inductive GfeValue where
  | json (payload : ℕ)
  | errNotFound
  | errStatus (code : ℕ)
  | errExn
deriving DecidableEq, Repr

/-- Loop body of `get_from_endpoint`.  Arguments mirror the Python local
state: `silent`, `return_errors`, `allow_fail`, `first_run`,
`to_return`; `resps` is the stream of HTTP outcomes and `n` counts
requests issued so far.  The Python `None` return is `none` in the inner
`Option GfeValue`. -/
def gfeLoop : Bool → Bool → Bool → Bool → Option GfeValue → List HttpResp → ℕ →
    Option (Option GfeValue × ℕ)
  | silent, return_errors, allow_fail, first_run, to_return, resps, n =>
    if allow_fail ∧ ¬ first_run then some (to_return, n)
    else
      match resps with
      | [] => none
      | r :: rest =>
        match r with
        | .ok v => gfeLoop silent return_errors true false (some (.json v)) rest (n + 1)
        | .notFound =>
          gfeLoop silent return_errors allow_fail false
            (if return_errors then some .errNotFound else none) rest (n + 1)
        | .rateLimited => gfeLoop silent true true true none rest (n + 1)
        | .failStatus c =>
          gfeLoop silent return_errors allow_fail false
            (if return_errors then some (.errStatus c) else none) rest (n + 1)
        | .netExn =>
          gfeLoop silent return_errors allow_fail false
            (if return_errors then some .errExn else none) rest (n + 1)

/-- Embedding of `get_from_endpoint(endpoint, description, silent,
return_errors, allow_fail)` run against the response stream `resps`. -/
def get_from_endpoint (silent return_errors allow_fail : Bool)
    (resps : List HttpResp) : Option (Option GfeValue × ℕ) :=
  gfeLoop silent return_errors allow_fail true none resps 0

/-! ### Market snapshots, get_quote, get_last_price
(interactive_brokers_rest_data.py lines 899-918 and 1057-1101)

`get_market_snapshot` converts every snapshot field to `float` when
`float(value)` succeeds, so a field value reaching `get_quote` /
`get_last_price` is either a number (`fnum`), a string of the form
`"C<number>"` for a stale last price (`float` fails on it, `fstale`
carries the numeric part after the `"C"`), or some other non-numeric
string (`fstr`). -/

/-- Value of one field of a market-snapshot response. -/
inductive FieldVal where
  | fnum (q : ℚ)
  | fstale (q : ℚ)
  | fstr (s : String)
deriving DecidableEq, Repr

/-- Snapshot dict passed to `get_quote`, with the five requested fields
present. -/
structure Snapshot where
  last_price : FieldVal
  bid : FieldVal
  ask : FieldVal
  bid_size : FieldVal
  ask_size : FieldVal
deriving DecidableEq, Repr

/-- Quote dict returned by `get_quote`; `trading` is the `"trading"` key
(false exactly when the last price carried the stale `"C"` marker), and
`bid`/`ask` are `none` when normalized to Python `None`. -/
structure QuoteOut where
  price : FieldVal
  trading : Bool
  bid : Option FieldVal
  ask : Option FieldVal
  bid_size : FieldVal
  ask_size : FieldVal
deriving DecidableEq, Repr

/-- Embedding of `get_quote`.  The `resp` argument is the
`get_market_snapshot` result: `none` models both a `None` return and an
empty dict (both falsy, so `if not result: return None`). -/
def get_quote (resp : Option Snapshot) : Option QuoteOut :=
  match resp with
  | none => none
  | some s =>
    let pt : FieldVal × Bool :=
      match s.last_price with
      | .fstale q => (.fnum q, false)
      | v => (v, true)
    some
      { price := pt.1
        trading := pt.2
        bid := if s.bid = .fnum (-1) then none else some s.bid
        ask := if s.ask = .fnum (-1) then none else some s.ask
        bid_size := s.bid_size
        ask_size := s.ask_size }

/-- Embedding of `get_last_price`.  The argument models the
`get_market_snapshot` result: `none` is a `None` response, `some none`
a response dict lacking the `"last_price"` field, and `some (some v)` a
response carrying field value `v`.  The result is `none` when the final
`float(price)` raises `ValueError` (a non-numeric string without the
`"C"` prefix); in every other case it is the returned float. -/
def get_last_price (resp : Option (Option FieldVal)) : Option ℚ :=
  match resp with
  | none => some (-1)
  | some none => some (-1)
  | some (some (.fnum q)) => some q
  | some (some (.fstale q)) => some q
  | some (some (.fstr _)) => none

/-! ### Ccxt._submit_order (ccxt.py lines 211-355)

The order's optional quantity and price attributes, the market's limits
and precisions, and the broker call are modelled explicitly.  Python's
per-bound `try`/`except AssertionError` blocks each log a warning and
`return` (the rejection is not an exception); the `Decimal * None`
`TypeError` that the cost checks raise when the order has no quantity
propagates out of the function. -/

/-- The four price attributes scanned by the `for price_type in [...]`
loop, in source order. -/
inductive PriceField where
  | limit
  | stop
  | stopLoss
  | stopLossLimit
deriving DecidableEq, Repr

/-- Order attributes consulted by `_submit_order`; `none` models an
attribute whose value is Python `None`. -/
structure CcxtOrder where
  quantity : Option ℚ
  limit_price : Option ℚ
  stop_price : Option ℚ
  stop_loss_price : Option ℚ
  stop_loss_limit_price : Option ℚ
deriving DecidableEq, Repr

/-- Read the attribute named by `f` (`getattr(order, price_type)`). -/
def getPrice (o : CcxtOrder) : PriceField → Option ℚ
  | .limit => o.limit_price
  | .stop => o.stop_price
  | .stopLoss => o.stop_loss_price
  | .stopLossLimit => o.stop_loss_limit_price

/-- Write the attribute named by `f` (`setattr(order, price_type, v)`). -/
def setPrice (o : CcxtOrder) (f : PriceField) (v : ℚ) : CcxtOrder :=
  match f with
  | .limit => { o with limit_price := some v }
  | .stop => { o with stop_price := some v }
  | .stopLoss => { o with stop_loss_price := some v }
  | .stopLossLimit => { o with stop_loss_limit_price := some v }

/-- The `market["limits"]` structure: each bound is checked only when it
is not `None`. -/
structure CcxtLimits where
  amount_min : Option ℚ
  amount_max : Option ℚ
  price_min : Option ℚ
  price_max : Option ℚ
  cost_min : Option ℚ
  cost_max : Option ℚ
deriving DecidableEq, Repr

/-- The market data `_submit_order` reads: limits and the decimal
exponents of `Decimal(str(precision["amount"]))` and
`Decimal(str(precision["price"]))`. -/
structure CcxtMarket where
  limits : CcxtLimits
  amount_exp : ℤ
  price_exp : ℤ
deriving DecidableEq, Repr

/-- Observable outcome of `_submit_order`: the order as mutated so far,
whether `self.api.create_order` was reached, whether an identifier was
set on the order, whether a rejection warning was logged, and whether a
non-`AssertionError` exception propagated. -/
structure SubmitTrace where
  order : CcxtOrder
  createOrderCalled : Bool
  identifierSet : Bool
  warned : Bool
  raised : Bool
deriving DecidableEq, Repr

/-- Trace of a limit-check rejection: warning logged, no broker call, no
identifier, no exception. -/
def rejectTrace (o : CcxtOrder) : SubmitTrace :=
  { order := o, createOrderCalled := false, identifierSet := false,
    warned := true, raised := false }

/-- Trace of the `TypeError` raised by `Decimal * None` in a cost check
when the order has no quantity. -/
def raiseTrace (o : CcxtOrder) : SubmitTrace :=
  { order := o, createOrderCalled := false, identifierSet := false,
    warned := false, raised := true }

/-- Quantity block of `_submit_order` (lines 220-249): quantize the
quantity to the amount precision, then check it against the defined
amount bounds. -/
def submitQtyCheck (m : CcxtMarket) (o : CcxtOrder) : Except SubmitTrace CcxtOrder :=
  match o.quantity with
  | none => .ok o
  | some q =>
    let q2 := decQuantize m.amount_exp q
    let o2 := { o with quantity := some q2 }
    match m.limits.amount_min with
    | some mn =>
      if q2 < mn then .error (rejectTrace o2)
      else
        match m.limits.amount_max with
        | some mx => if mx < q2 then .error (rejectTrace o2) else .ok o2
        | none => .ok o2
    | none =>
      match m.limits.amount_max with
      | some mx => if mx < q2 then .error (rejectTrace o2) else .ok o2
      | none => .ok o2

/-- Cost checks for one quantized price `p2` (lines 293-323):
`price * quantity` against the defined cost bounds.  `Decimal * None`
raises `TypeError` when the order has no quantity. -/
def submitCostCheck (m : CcxtMarket) (o2 : CcxtOrder) (p2 : ℚ) :
    Except SubmitTrace CcxtOrder :=
  match m.limits.cost_min with
  | some cmn =>
    match o2.quantity with
    | none => .error (raiseTrace o2)
    | some q =>
      if p2 * q < cmn then .error (rejectTrace o2)
      else
        match m.limits.cost_max with
        | some cmx =>
          if cmx < p2 * q then .error (rejectTrace o2) else .ok o2
        | none => .ok o2
  | none =>
    match m.limits.cost_max with
    | some cmx =>
      match o2.quantity with
      | none => .error (raiseTrace o2)
      | some q => if cmx < p2 * q then .error (rejectTrace o2) else .ok o2
    | none => .ok o2

/-- Body of one iteration of the price loop (lines 252-323): when the
attribute is present, quantize it to the price precision and run the
price and cost checks. -/
def submitPriceCheck (m : CcxtMarket) (f : PriceField) (o : CcxtOrder) :
    Except SubmitTrace CcxtOrder :=
  match getPrice o f with
  | none => .ok o
  | some p =>
    let p2 := decQuantize m.price_exp p
    let o2 := setPrice o f p2
    match m.limits.price_min with
    | some mn =>
      if p2 < mn then .error (rejectTrace o2)
      else
        match m.limits.price_max with
        | some mx =>
          if mx < p2 then .error (rejectTrace o2) else submitCostCheck m o2 p2
        | none => submitCostCheck m o2 p2
    | none =>
      match m.limits.price_max with
      | some mx =>
        if mx < p2 then .error (rejectTrace o2) else submitCostCheck m o2 p2
      | none => submitCostCheck m o2 p2

/-- The price loop over the four price attributes, in source order. -/
def submitPriceChecks (m : CcxtMarket) : CcxtOrder → List PriceField →
    Except SubmitTrace CcxtOrder
  | o, [] => .ok o
  | o, f :: rest =>
    match submitPriceCheck m f o with
    | .error t => .error t
    | .ok o2 => submitPriceChecks m o2 rest

/-- Embedding of `Ccxt._submit_order`.  `apiOk` models whether
`self.api.create_order` returns a response (`true`: identifier and
status are set from it) or raises (`false`: the exception is captured
with `order.set_error`, not re-raised, and no identifier is set). -/
def _submit_order (m : CcxtMarket) (apiOk : Bool) (o : CcxtOrder) : SubmitTrace :=
  match submitQtyCheck m o with
  | .error t => t
  | .ok o1 =>
    match submitPriceChecks m o1 [.limit, .stop, .stopLoss, .stopLossLimit] with
    | .error t => t
    | .ok o2 =>
      if apiOk then
        { order := o2, createOrderCalled := true, identifierSet := true,
          warned := false, raised := false }
      else
        { order := o2, createOrderCalled := true, identifierSet := false,
          warned := false, raised := false }

/-- Concrete four-row portfolio used to exercise
`DriftCalculationLogic.calculate`: a quote-asset row, a
full-liquidation row, a new-entry row and an ordinary drift row. -/
def demoRows : List PositionRow :=
  [{ symbol := "USD", is_quote_asset := true, current_quantity := 100,
     current_value := 100, target_weight := 0 },
   { symbol := "AAA", is_quote_asset := false, current_quantity := 1,
     current_value := 100, target_weight := 0 },
   { symbol := "BBB", is_quote_asset := false, current_quantity := 0,
     current_value := 0, target_weight := 1/2 },
   { symbol := "CCC", is_quote_asset := false, current_quantity := 2,
     current_value := 50, target_weight := 1/4 }]

/-! ## Theorems -/

theorem roundHalfEven_intCast (n : ℤ) : roundHalfEven (n : ℚ) = n := by
  unfold roundHalfEven
  norm_num

/-- C8: quantity and price normalization in `_submit_order` is
idempotent: quantizing a quantized value again with the same precision
exponent is the identity, and more generally every value already on the
precision grid (an integer multiple of `10 ^ e`) is left unchanged by
`decQuantize e`. -/
theorem decQuantize_idempotent (e : ℤ) (v : ℚ) :
    decQuantize e (decQuantize e v) = decQuantize e v ∧
    ∀ n : ℤ, decQuantize e ((n : ℚ) * (10 : ℚ) ^ e) = (n : ℚ) * (10 : ℚ) ^ e := by
  have hp : ((10 : ℚ) ^ e) ≠ 0 := zpow_ne_zero e (by norm_num)
  have key : ∀ n : ℤ, decQuantize e ((n : ℚ) * (10 : ℚ) ^ e) = (n : ℚ) * (10 : ℚ) ^ e := by
    intro n
    show (roundHalfEven ((n : ℚ) * (10 : ℚ) ^ e / (10 : ℚ) ^ e) : ℚ) * (10 : ℚ) ^ e = _
    rw [mul_div_cancel_right₀ _ hp, roundHalfEven_intCast]
  exact ⟨key (roundHalfEven (v / (10 : ℚ) ^ e)), key⟩

/-- C3 counterexample: with the configured slippage fraction `0.0005`
(= 1/2000) and last price 10000, the code's sell limit price is
`9999.9995` (= 19999999/2000), not the `9995` that the plain-fraction
formula `last_price * (1 - slippage_fraction)` would give. -/
theorem calculate_limit_price_not_plain_fraction :
    calculate_limit_price (1/2000) 10000 "sell" = some (19999999/2000) ∧
    (10000 : ℚ) * (1 - 1/2000) = 9995 ∧
    ((19999999 : ℚ)/2000) ≠ 9995 := by
  refine ⟨?_, by norm_num, by norm_num⟩
  unfold calculate_limit_price
  norm_num

/-- C3 (amended): `calculate_limit_price` returns
`last_price * (1 - slippage/10000)` for side `"sell"` and
`last_price * (1 + slippage/10000)` for side `"buy"` — the configured
slippage value is divided by 10000 before being applied, not used as a
plain fraction. -/
theorem calculate_limit_price_formula (s lp : ℚ) :
    calculate_limit_price s lp "sell" = some (lp * (1 - s / 10000)) ∧
    calculate_limit_price s lp "buy" = some (lp * (1 + s / 10000)) := by
  constructor <;> rfl

/-- C9: `get_last_price` returns the float sentinel `-1` — a negative
price for any caller converting it — whenever the market snapshot is
`None` or lacks the `last_price` field; it neither raises nor returns
`None` in those cases. -/
theorem get_last_price_sentinel (resp : Option (Option FieldVal))
    (h : resp = none ∨ resp = some none) :
    get_last_price resp = some (-1) ∧ (-1 : ℚ) < 0 := by
  rcases h with h | h <;> subst h <;> exact ⟨rfl, by norm_num⟩

/-- C9 witness: a `None` snapshot yields the `-1` sentinel. -/
theorem get_last_price_sentinel_witness :
    get_last_price none = some (-1) ∧ (-1 : ℚ) < 0 :=
  get_last_price_sentinel none (Or.inl rfl)

/-- C6 counterexample: with `allow_fail=False` a 404 is not terminal —
the request is re-issued.  Against the response stream
`[404, 200 (payload 7)]`, `get_from_endpoint` issues two requests and
returns the second attempt's JSON payload, not the 404 error marker
after one attempt. -/
theorem gfe_404_retried_counterexample :
    get_from_endpoint false true false [.notFound, .ok 7] =
      some (some (.json 7), 2) := by
  simp [get_from_endpoint, gfeLoop]

/-- C6 (amended): only with `allow_fail=True` (the default) is a 404
terminal for the request: `get_from_endpoint` stops after that single
attempt and returns the error marker (when `return_errors` is set),
never re-issuing the request no matter what further responses would
follow. -/
theorem gfe_404_terminal_when_allow_fail (silent return_errors : Bool)
    (rest : List HttpResp) :
    get_from_endpoint silent return_errors true (.notFound :: rest) =
      some ((if return_errors then some GfeValue.errNotFound else none), 1) := by
  simp only [get_from_endpoint]
  rw [gfeLoop.eq_def]
  simp only [Bool.not_true, and_false, if_false]
  rw [gfeLoop.eq_def]
  simp

/-- C10: the strategy's parameter checks raise `ValueError` when
`acceptable_slippage >= absolute_drift_threshold` or when
`absolute_drift_threshold >= 1`; when both checks pass the strategy
initializes successfully, and a target weight that is `<=` the threshold
only produces a warning for its symbol. -/
theorem strategyInit_checks (t s : ℚ) (tw : List (String × ℚ)) :
    ((t ≤ s ∨ 1 ≤ t) → ∃ msg, strategyInit t s tw = Except.error msg) ∧
    (s < t → t < 1 → ∃ ws, strategyInit t s tw = Except.ok ws ∧
      ∀ k w, (k, w) ∈ tw → w ≤ t → k ∈ ws) := by
  constructor
  · intro h
    unfold strategyInit
    split_ifs with h1 h2
    · exact ⟨_, rfl⟩
    · exact ⟨_, rfl⟩
    · rcases h with h | h
      · exact absurd h h1
      · exact absurd h h2
  · intro hs ht
    unfold strategyInit
    rw [if_neg (not_le.mpr hs), if_neg (not_le.mpr ht)]
    refine ⟨_, rfl, ?_⟩
    intro k w hmem hw
    simp only [List.mem_map, List.mem_filter]
    exact ⟨(k, w), ⟨hmem, by simpa using hw⟩, rfl⟩

/-- C10 witness: threshold 1/2 with slippage 1/2 errors; threshold 1/2
with slippage 0 succeeds and warns about the weight 1/4 symbol. -/
theorem strategyInit_checks_witness :
    (∃ msg, strategyInit (1/2) (1/2) [] = Except.error msg) ∧
    (∃ ws, strategyInit (1/2) 0 [("SPY", 1/4)] = Except.ok ws ∧
      ∀ k w, (k, w) ∈ [("SPY", (1/4 : ℚ))] → w ≤ 1/2 → k ∈ ws) :=
  ⟨(strategyInit_checks (1/2) (1/2) []).1 (Or.inl (by norm_num)),
   (strategyInit_checks (1/2) 0 [("SPY", 1/4)]).2 (by norm_num) (by norm_num)⟩

/-- C7: `get_quote` parses a `"C"`-prefixed (stale) last price to its
numeric value and flags the quote as not live (`trading = false`), a
numeric last price is passed through flagged live, and a bid or ask of
exactly `-1` is normalized to `None` (absent, never zero) while every
other bid/ask value passes through unchanged. -/
theorem get_quote_normalizes (s : Snapshot) (r : QuoteOut)
    (h : get_quote (some s) = some r) :
    (∀ q, s.last_price = .fstale q → r.price = .fnum q ∧ r.trading = false) ∧
    (∀ q, s.last_price = .fnum q → r.price = .fnum q ∧ r.trading = true) ∧
    (s.bid = .fnum (-1) → r.bid = none) ∧
    (s.bid ≠ .fnum (-1) → r.bid = some s.bid) ∧
    (s.ask = .fnum (-1) → r.ask = none) ∧
    (s.ask ≠ .fnum (-1) → r.ask = some s.ask) := by
  unfold get_quote at h
  injection h with h
  subst h
  refine ⟨?_, ?_, ?_, ?_, ?_, ?_⟩
  · intro q hq
    rw [hq]
    exact ⟨rfl, rfl⟩
  · intro q hq
    rw [hq]
    exact ⟨rfl, rfl⟩
  · intro hb
    simp [if_pos hb]
  · intro hb
    simp [if_neg hb]
  · intro ha
    simp [if_pos ha]
  · intro ha
    simp [if_neg ha]

/-- C7 witness: a snapshot with stale last price `"C5"`, bid `-1` and
ask `2` yields price 5 flagged not live, bid `None` and ask passed
through. -/
theorem get_quote_normalizes_witness :
    get_quote (some ⟨.fstale 5, .fnum (-1), .fnum 2, .fnum 10, .fnum 20⟩) =
      some ⟨.fnum 5, false, none, some (.fnum 2), .fnum 10, .fnum 20⟩ ∧
    (QuoteOut.mk (.fnum 5) false none (some (.fnum 2)) (.fnum 10) (.fnum 20)).trading
      = false := by
  have h : get_quote (some ⟨.fstale 5, .fnum (-1), .fnum 2, .fnum 10, .fnum 20⟩) =
      some ⟨.fnum 5, false, none, some (.fnum 2), .fnum 10, .fnum 20⟩ := by
    unfold get_quote
    norm_num
  exact ⟨h, ((get_quote_normalizes _ _ h).1 5 rfl).2⟩

/-- C5: an order whose quantized quantity is below a defined minimum
amount is rejected locally by `_submit_order`: the broker's
`create_order` is never called, no identifier is set, the rejection is
logged as a warning, and no exception is raised. -/
theorem submit_rejects_below_min (m : CcxtMarket) (apiOk : Bool) (o : CcxtOrder)
    (q mn : ℚ) (hq : o.quantity = some q) (hmn : m.limits.amount_min = some mn)
    (hlt : decQuantize m.amount_exp q < mn) :
    (_submit_order m apiOk o).createOrderCalled = false ∧
    (_submit_order m apiOk o).identifierSet = false ∧
    (_submit_order m apiOk o).warned = true ∧
    (_submit_order m apiOk o).raised = false := by
  have hstep : submitQtyCheck m o =
      .error (rejectTrace { o with quantity := some (decQuantize m.amount_exp q) }) := by
    unfold submitQtyCheck
    rw [hq]
    simp only [hmn]
    rw [if_pos hlt]
  unfold _submit_order
  rw [hstep]
  exact ⟨rfl, rfl, rfl, rfl⟩

/-- C5 witness: quantity 0 against a minimum of 1 (precision exponent 0)
is rejected without any broker call. -/
theorem submit_rejects_below_min_witness :
    (_submit_order ⟨⟨some 1, none, none, none, none, none⟩, 0, 0⟩ true
      ⟨some 0, none, none, none, none⟩).createOrderCalled = false ∧
    (_submit_order ⟨⟨some 1, none, none, none, none, none⟩, 0, 0⟩ true
      ⟨some 0, none, none, none, none⟩).identifierSet = false ∧
    (_submit_order ⟨⟨some 1, none, none, none, none, none⟩, 0, 0⟩ true
      ⟨some 0, none, none, none, none⟩).warned = true ∧
    (_submit_order ⟨⟨some 1, none, none, none, none, none⟩, 0, 0⟩ true
      ⟨some 0, none, none, none, none⟩).raised = false :=
  submit_rejects_below_min _ true _ 0 1 rfl rfl
    (by norm_num [decQuantize, roundHalfEven])

theorem calc_limit_buy (s lp : ℚ) :
    calculate_limit_price s lp "buy" = some (lp * (1 + s / 10000)) := rfl

theorem buyStep_eq (s : ℚ) (prices : String → ℚ) (cash : ℚ) (row : DriftRow) :
    buyStep s prices cash row =
      if 0 < row.absolute_drift then
        if prices row.symbol * (1 + s / 10000) = 0 then none
        else if 0 < truncQ (min (row.target_value - row.current_value) cash /
            (prices row.symbol * (1 + s / 10000))) then
          some (cash - min (row.target_value - row.current_value) cash)
        else some cash
      else some cash := rfl

theorem buyStep_nonneg {s : ℚ} {prices : String → ℚ} {cash c : ℚ} {row : DriftRow}
    (h0 : 0 ≤ cash) (h : buyStep s prices cash row = some c) : 0 ≤ c := by
  rw [buyStep_eq] at h
  by_cases hd : 0 < row.absolute_drift
  · rw [if_pos hd] at h
    by_cases hz : prices row.symbol * (1 + s / 10000) = 0
    · rw [if_pos hz] at h
      cases h
    · rw [if_neg hz] at h
      by_cases hqty : 0 < truncQ (min (row.target_value - row.current_value) cash /
          (prices row.symbol * (1 + s / 10000)))
      · rw [if_pos hqty] at h
        injection h with h
        rw [← h]
        exact sub_nonneg.mpr (min_le_right _ _)
      · rw [if_neg hqty] at h
        injection h with h
        rw [← h]
        exact h0
  · rw [if_neg hd] at h
    injection h with h
    rw [← h]
    exact h0

theorem buyPass_nonneg {s : ℚ} {prices : String → ℚ} :
    ∀ (rows : List DriftRow) (cash c : ℚ), 0 ≤ cash →
      buyPass s prices cash rows = some c → 0 ≤ c
  | [], cash, c, h0, h => by
    unfold buyPass at h
    injection h with h
    rw [← h]
    exact h0
  | row :: rest, cash, c, h0, h => by
    unfold buyPass at h
    cases hstep : buyStep s prices cash row with
    | none => rw [hstep] at h; cases h
    | some cash' =>
      rw [hstep] at h
      exact buyPass_nonneg rest cash' c (buyStep_nonneg h0 hstep) h

/-- C2: in the buy pass, a submitted buy's value is capped at the
remaining cash (`min(order_value, cash_position)`), the cash estimate is
decremented by exactly that capped value, and consequently for every
dataframe and every non-negative starting cash the running cash estimate
stays non-negative through any sequence of buy rows. -/
theorem buy_pass_cash_nonneg (s : ℚ) (prices : String → ℚ) :
    (∀ (cash : ℚ) (row : DriftRow) (limit : ℚ),
      calculate_limit_price s (prices row.symbol) "buy" = some limit →
      limit ≠ 0 → 0 < row.absolute_drift →
      0 < truncQ (min (row.target_value - row.current_value) cash / limit) →
      buyStep s prices cash row =
        some (cash - min (row.target_value - row.current_value) cash)) ∧
    (∀ (rows : List DriftRow) (cash c : ℚ), 0 ≤ cash →
      buyPass s prices cash rows = some c → 0 ≤ c) := by
  constructor
  · intro cash row limit hlim hz hd hqty
    have hl : limit = prices row.symbol * (1 + s / 10000) := by
      rw [calc_limit_buy] at hlim
      injection hlim with hlim
      exact hlim.symm
    subst hl
    rw [buyStep_eq, if_pos hd, if_neg hz, if_pos hqty]
  · exact fun rows cash c h0 h => buyPass_nonneg rows cash c h0 h

/-- C2 witness: with zero slippage, unit prices, cash 5 and one buy row
of order value 10, the order is capped at the full remaining cash and
the estimate ends at exactly 0, which is non-negative. -/
theorem buy_pass_cash_nonneg_witness :
    buyStep 0 (fun _ => (1 : ℚ)) 5 ⟨"AAA", 0, 0, 10, 1⟩ =
      some (5 - min ((10 : ℚ) - 0) 5) ∧ (0 : ℚ) ≤ 5 := by
  constructor
  · exact (buy_pass_cash_nonneg 0 (fun _ => 1)).1 5 ⟨"AAA", 0, 0, 10, 1⟩ 1
      (by norm_num [calculate_limit_price]) (by norm_num) (by norm_num)
      (by norm_num [truncQ])
  · exact (buy_pass_cash_nonneg 0 (fun _ => 1)).2 [] 5 5 (by norm_num) rfl

/-- C1: every output row of `DriftCalculationLogic.calculate` gets its
`absolute_drift` from the ordered case analysis of
`calculate_drift_row`: 0 for a quote-asset row (taking priority over all
other cases), -1 when `current_quantity > 0` and `target_weight == 0`,
+1 when `current_quantity == 0` and `target_weight > 0`, and
`target_weight - current_weight` otherwise. -/
theorem calculate_drift_cases (rows : List PositionRow) (out : List CalcRow)
    (h : calculate rows = some out) (r : PositionRow) (hr : r ∈ rows) :
    calcRow (totalValue rows) r ∈ out ∧
    (r.is_quote_asset = true → (calcRow (totalValue rows) r).absolute_drift = 0) ∧
    (r.is_quote_asset = false → 0 < r.current_quantity → r.target_weight = 0 →
      (calcRow (totalValue rows) r).absolute_drift = -1) ∧
    (r.is_quote_asset = false → r.current_quantity = 0 → 0 < r.target_weight →
      (calcRow (totalValue rows) r).absolute_drift = 1) ∧
    (r.is_quote_asset = false → ¬(0 < r.current_quantity ∧ r.target_weight = 0) →
      ¬(r.current_quantity = 0 ∧ 0 < r.target_weight) →
      (calcRow (totalValue rows) r).absolute_drift =
        r.target_weight - (calcRow (totalValue rows) r).current_weight) := by
  have hout : out = rows.map (calcRow (totalValue rows)) := by
    unfold calculate at h
    by_cases hc : totalValue rows = 0 ∧ rows ≠ []
    · rw [if_pos hc] at h
      cases h
    · rw [if_neg hc] at h
      injection h with h
      exact h.symm
  subst hout
  refine ⟨List.mem_map_of_mem _ hr, ?_, ?_, ?_, ?_⟩
  · intro hq
    simp [calcRow, hq]
  · intro hq hqty htw
    simp [calcRow, hq, hqty, htw]
  · intro hq hqty htw
    simp [calcRow, hq, hqty, htw, not_lt.mpr (le_of_eq hqty.symm)]
  · intro hq h2 h3
    simp [calcRow, hq, h2, h3]

/-- C1 witness: in the four-row demo portfolio, the row holding one unit
with target weight zero drifts exactly -1 and appears in the output. -/
theorem calculate_drift_cases_witness :
    (calcRow (totalValue demoRows) ⟨"AAA", false, 1, 100, 0⟩).absolute_drift = -1 ∧
    calcRow (totalValue demoRows) ⟨"AAA", false, 1, 100, 0⟩ ∈
      demoRows.map (calcRow (totalValue demoRows)) := by
  have h : calculate demoRows = some (demoRows.map (calcRow (totalValue demoRows))) := by
    unfold calculate
    rw [if_neg]
    intro hc
    have := hc.1
    norm_num [totalValue, demoRows] at this
  have hmem : (⟨"AAA", false, 1, 100, 0⟩ : PositionRow) ∈ demoRows := by
    simp [demoRows]
  obtain ⟨h1, _, h3, _, _⟩ := calculate_drift_cases demoRows _ h _ hmem
  exact ⟨h3 rfl (by norm_num) rfl, h1⟩

/-- C4 counterexample: a single non-quote position with
`current_value = 0` makes `total_value = 0`; `calculate` then raises on
the unguarded `Decimal` division (modelled by `none`) instead of
producing rows with `current_weight = 0`. -/
theorem calculate_zero_total_counterexample :
    calculate [⟨"AAA", false, 1, 0, 0⟩] = none := by
  unfold calculate
  rw [if_pos]
  exact ⟨by norm_num [totalValue], by simp⟩

/-- C4 (amended): `calculate` computes
`current_weight = current_value / total_value` for every row whenever
`total_value` is nonzero, but when `total_value == 0` and the position
set is nonempty the unguarded division raises a decimal division error
(no dataframe is produced) rather than defaulting the weights to 0. -/
theorem calculate_total_vs_zero (rows : List PositionRow) :
    (totalValue rows ≠ 0 →
      calculate rows = some (rows.map (calcRow (totalValue rows))) ∧
      ∀ r ∈ rows, (calcRow (totalValue rows) r).current_weight =
        r.current_value / totalValue rows) ∧
    (totalValue rows = 0 → rows ≠ [] → calculate rows = none) := by
  constructor
  · intro h
    constructor
    · unfold calculate
      rw [if_neg]
      intro hc
      exact h hc.1
    · intro r _
      rfl
  · intro h hne
    unfold calculate
    rw [if_pos ⟨h, hne⟩]

/-- C4 witness: the demo portfolio (total value 250) gets its weights by
division, while a nonempty zero-value portfolio makes `calculate`
fail. -/
theorem calculate_total_vs_zero_witness :
    calculate demoRows = some (demoRows.map (calcRow (totalValue demoRows))) ∧
    calculate [⟨"ZZZ", false, 1, 0, 0⟩] = none := by
  refine ⟨((calculate_total_vs_zero demoRows).1 ?_).1,
    (calculate_total_vs_zero _).2 ?_ ?_⟩
  · norm_num [totalValue, demoRows]
  · norm_num [totalValue]
  · simp
